import Mathlib

/-!
Verification of the `using-submodels` tutorial notebook of PyBaMM.

The notebook (`examples/notebooks/using-submodels.ipynb`) is a straight-line
sequence of calls into the PyBaMM library: construct a model, mutate its
submodel dictionary, build it, construct a simulation, solve and plot.  The
library operations themselves are not part of the file under review, so they
are modelled here from the specification: a submodel registry keyed by
physics-area name, a `build_model` operation that raises when required
submodels are missing and populates the right-hand-side equation container
(empty pre-build), and a `Simulation` accepting a built model.
-/

set_option linter.unusedVariables false

namespace PyBaMM

/-- Modelled from the spec: the parameter object attached to a model
(`model.param`), passed to every submodel constructor.  The notebook treats
it as an object handle only; we record the chemistry it was set up for. -/
structure Param where
  chemistry : String
deriving Repr, DecidableEq

/-- Modelled from the spec: a pluggable physics submodel.  A submodel is an
interchangeable implementation object; for building we record its class name
and the state variables it contributes to the coupled system (each state
variable receives one right-hand-side equation when the model is built). -/
structure Submodel where
  className : String
  stateVariables : List String
deriving Repr, DecidableEq

/-- The submodel registry: a mapping from physics-area name to submodel,
with Python-dict semantics (insertion order preserved, assignment to an
existing key replaces in place, assignment to a fresh key appends). -/
abbrev SubmodelDict := List (String × Submodel)

/-- Dictionary lookup (`model.submodels[k]`), first binding wins. -/
def dictGet (d : SubmodelDict) (k : String) : Option Submodel :=
  match d with
  | [] => none
  | (k', v) :: rest => if k' = k then some v else dictGet rest k

/-- Dictionary assignment (`model.submodels[k] = v`): replaces the binding
in place when the key is present, appends it otherwise. -/
def dictSet (d : SubmodelDict) (k : String) (v : Submodel) : SubmodelDict :=
  match d with
  | [] => [(k, v)]
  | (k', v') :: rest =>
      if k' = k then (k, v) :: rest else (k', v') :: dictSet rest k v

/-- Modelled from the spec: a battery model.  It owns a parameter object, a
submodel registry (mutable before building), a right-hand-side equation
container `rhs` (empty until `build_model` populates it) and a `built`
status set by `build_model`. -/
structure Model where
  param : Param
  submodels : SubmodelDict
  rhs : List (String × String)
  built : Bool
deriving Repr, DecidableEq

/-- `model.submodels[k] = s` as an operation on the whole model. -/
def Model.setSubmodel (m : Model) (k : String) (s : Submodel) : Model :=
  { m with submodels := dictSet m.submodels k s }

/-- A sequence of submodel assignments, applied in order. -/
def applyAssignments (m : Model) (assigns : List (String × Submodel)) : Model :=
  assigns.foldl (fun acc p => acc.setSubmodel p.1 p.2) m

/-- Modelled from the spec: the physics-area names whose submodels a
lithium-ion model must have before `build_model` can succeed (both the
pre-configured SPM and the notebook's hand-assembled model provide all of
them). -/
def requiredSubmodelKeys : List String :=
  ["external circuit", "porosity",
   "negative interface", "positive interface",
   "negative interface current", "positive interface current",
   "negative particle", "positive particle",
   "negative electrode", "positive electrode",
   "electrolyte diffusion", "thermal", "current collector",
   "negative sei", "positive sei"]

/-- The required physics-area names missing from a model's registry. -/
def missingSubmodels (m : Model) : List String :=
  requiredSubmodelKeys.filter (fun k => (dictGet m.submodels k).isNone)

/-- Modelled from the spec: the equation-assembly pass of `build_model` —
one right-hand-side entry per state variable of the composed submodels, in
registry order. -/
def assembleRhs (d : SubmodelDict) : List (String × String) :=
  d.flatMap (fun p => p.2.stateVariables.map (fun v => (v, "d/dt of " ++ v)))

/-- Modelled from the spec: `model.build_model()` raises when a required
submodel is missing from the registry, and otherwise populates the
right-hand-side equation container from the composed submodels and marks
the model as built. -/
def Model.build_model (m : Model) : Except String Model :=
  match missingSubmodels m with
  | [] => .ok { m with rhs := assembleRhs m.submodels, built := true }
  | k :: _ => .error ("Submodel missing for " ++ k)

/-- The notebook writes `"Negative"` / `"Positive"` for the electrode a
submodel acts in; variable names use the lower-case domain name. -/
def domainName (electrode : String) : String :=
  if electrode = "Negative" then "negative" else "positive"

namespace external_circuit

/-- Modelled from the spec: the current-control external-circuit submodel;
it contributes the discharge-capacity state variable. -/
def CurrentControl (p : Param) : Submodel :=
  { className := "CurrentControl",
    stateVariables := ["Discharge capacity [A.h]"] }

end external_circuit

namespace porosity

/-- Modelled from the spec: constant-in-time porosity, no state of its own. -/
def Constant (p : Param) : Submodel :=
  { className := "Constant", stateVariables := [] }

end porosity

namespace tortuosity

/-- Modelled from the spec: Bruggeman tortuosity, no state of its own. -/
def Bruggeman (p : Param) (phase : String) : Submodel :=
  { className := "Bruggeman", stateVariables := [] }

end tortuosity

namespace convection

/-- Modelled from the spec: the no-convection submodel (through-cell or
transverse), no state of its own. -/
def NoConvection (p : Param) (direction : String) : Submodel :=
  { className := "NoConvection", stateVariables := [] }

end convection

namespace interface

/-- Modelled from the spec: inverse Butler-Volmer interface kinetics, no
state of its own. -/
def InverseButlerVolmer (p : Param) (electrode reaction : String) : Submodel :=
  { className := "InverseButlerVolmer", stateVariables := [] }

/-- Modelled from the spec: the companion current submodel for the inverse
Butler-Volmer kinetics, no state of its own. -/
def CurrentForInverseButlerVolmer (p : Param) (electrode reaction : String) :
    Submodel :=
  { className := "CurrentForInverseButlerVolmer", stateVariables := [] }

end interface

namespace kinetics

/-- Modelled from the spec: the no-reaction submodel (oxygen interfaces in
the SPM), no state of its own. -/
def NoReaction (p : Param) (electrode reaction : String) : Submodel :=
  { className := "NoReaction", stateVariables := [] }

end kinetics

namespace particle

/-- Modelled from the spec: Fickian diffusion in a single particle; it
contributes the x-averaged particle concentration as a state variable. -/
def FickianSingleParticle (p : Param) (electrode : String) : Submodel :=
  { className := "FickianSingleParticle",
    stateVariables :=
      ["X-averaged " ++ domainName electrode ++ " particle concentration"] }

/-- Modelled from the spec: polynomial concentration profile in a single
particle; with the "uniform profile" option the PDE is replaced by an ODE
for the r-x-averaged particle concentration. -/
def PolynomialSingleParticle (p : Param) (electrode profile : String) :
    Submodel :=
  { className := "PolynomialSingleParticle",
    stateVariables :=
      ["R-X-averaged " ++ domainName electrode ++ " particle concentration"] }

end particle

namespace electrode

namespace ohm

/-- Modelled from the spec: leading-order Ohm's law in a solid electrode,
no state of its own. -/
def LeadingOrder (p : Param) (electrode : String) : Submodel :=
  { className := "electrode.ohm.LeadingOrder", stateVariables := [] }

end ohm

end electrode

namespace electrolyte_conductivity

/-- Modelled from the spec: leading-order electrolyte charge conservation,
no state of its own. -/
def LeadingOrder (p : Param) : Submodel :=
  { className := "electrolyte_conductivity.LeadingOrder",
    stateVariables := [] }

end electrolyte_conductivity

namespace electrolyte_diffusion

/-- Modelled from the spec: infinitely fast electrolyte diffusion (constant
concentration), no state of its own. -/
def ConstantConcentration (p : Param) : Submodel :=
  { className := "ConstantConcentration", stateVariables := [] }

end electrolyte_diffusion

namespace thermal

namespace isothermal

/-- Modelled from the spec: the isothermal thermal submodel, no state of
its own. -/
def Isothermal (p : Param) : Submodel :=
  { className := "Isothermal", stateVariables := [] }

end isothermal

end thermal

namespace current_collector

/-- Modelled from the spec: uniform (homogeneous) current collector, no
state of its own. -/
def Uniform (p : Param) : Submodel :=
  { className := "Uniform", stateVariables := [] }

end current_collector

namespace sei

/-- Modelled from the spec: no SEI formation, no state of its own. -/
def NoSEI (p : Param) (electrode : String) : Submodel :=
  { className := "NoSEI", stateVariables := [] }

end sei

/-- The lithium-ion parameter object every model in the notebook carries. -/
def lithiumIonParam : Param := { chemistry := "lithium-ion" }

namespace lithium_ion

/-- The 22 submodels the pre-configured SPM collects, in the registry order
printed by the notebook. -/
def SPM_submodels : SubmodelDict :=
  [("external circuit", external_circuit.CurrentControl lithiumIonParam),
   ("porosity", porosity.Constant lithiumIonParam),
   ("electrolyte tortuosity", tortuosity.Bruggeman lithiumIonParam "Electrolyte"),
   ("electrode tortuosity", tortuosity.Bruggeman lithiumIonParam "Electrode"),
   ("through-cell convection", convection.NoConvection lithiumIonParam "through-cell"),
   ("transverse convection", convection.NoConvection lithiumIonParam "transverse"),
   ("negative interface",
     interface.InverseButlerVolmer lithiumIonParam "Negative" "lithium-ion main"),
   ("positive interface",
     interface.InverseButlerVolmer lithiumIonParam "Positive" "lithium-ion main"),
   ("negative interface current",
     interface.CurrentForInverseButlerVolmer lithiumIonParam "Negative" "lithium-ion main"),
   ("positive interface current",
     interface.CurrentForInverseButlerVolmer lithiumIonParam "Positive" "lithium-ion main"),
   ("negative oxygen interface",
     kinetics.NoReaction lithiumIonParam "Negative" "lithium-ion oxygen"),
   ("positive oxygen interface",
     kinetics.NoReaction lithiumIonParam "Positive" "lithium-ion oxygen"),
   ("negative particle", particle.FickianSingleParticle lithiumIonParam "Negative"),
   ("positive particle", particle.FickianSingleParticle lithiumIonParam "Positive"),
   ("negative electrode", electrode.ohm.LeadingOrder lithiumIonParam "Negative"),
   ("leading-order electrolyte conductivity",
     electrolyte_conductivity.LeadingOrder lithiumIonParam),
   ("electrolyte diffusion", electrolyte_diffusion.ConstantConcentration lithiumIonParam),
   ("positive electrode", electrode.ohm.LeadingOrder lithiumIonParam "Positive"),
   ("thermal", thermal.isothermal.Isothermal lithiumIonParam),
   ("current collector", current_collector.Uniform lithiumIonParam),
   ("negative sei", sei.NoSEI lithiumIonParam "Negative"),
   ("positive sei", sei.NoSEI lithiumIonParam "Positive")]

/-- The SPM as loaded with `build=False`: submodels collected, nothing built. -/
def SPM_unbuilt : Model :=
  { param := lithiumIonParam, submodels := SPM_submodels, rhs := [],
    built := false }

/-- The SPM after `build_model`: the right-hand side assembled from the
collected submodels. -/
def SPM_built : Model :=
  { SPM_unbuilt with rhs := assembleRhs SPM_submodels, built := true }

/-- Modelled from the spec: the pre-configured Single Particle Model
constructor `pybamm.lithium_ion.SPM`, taking a `build` flag: it collects
the SPM submodels and, when the flag is set, builds the model. -/
def SPM (build : Bool) : Except String Model :=
  if build then SPM_unbuilt.build_model else .ok SPM_unbuilt

/-- Modelled from the spec: calling `pybamm.lithium_ion.SPM()` with the
`build` keyword omitted; the library's default is `build=True`. -/
def SPM_default : Except String Model := SPM true

/-- Modelled from the spec: `pybamm.lithium_ion.BaseModel()` sets up the
basic model structure and lithium-ion defaults but selects no default
submodels, so its registry starts empty and it is unbuilt; its constructor
takes no `build` flag. -/
def BaseModel : Model :=
  { param := lithiumIonParam, submodels := [], rhs := [], built := false }

end lithium_ion

/-- Modelled from the spec: a simulation wraps a model together with the
solution produced by `solve`, absent until `solve` has run. -/
structure Simulation where
  model : Model
  solution : Option (List Nat)
deriving Repr, DecidableEq

/-- `pybamm.Simulation(model)`: the constructor accepts the model and no
solution exists yet. -/
def Simulation.make (m : Model) : Simulation :=
  { model := m, solution := none }

/-- Modelled from the spec: `simulation.solve(t_span)` integrates the built
model over the time span; attempting to use an unbuilt model (its equation
containers still empty) raises a library-level error instead of succeeding
silently. -/
def Simulation.solve (s : Simulation) (tspan : List Nat) :
    Except String Simulation :=
  if s.model.built then
    .ok { s with solution := some tspan }
  else
    .error "Cannot solve an unbuilt model; call build_model first"

/-- Modelled from the spec: `simulation.plot()` renders the stored solution;
it raises when `solve` has not produced one. -/
def Simulation.plot (s : Simulation) : Except String Unit :=
  match s.solution with
  | none => .error "No solution to plot; call solve first"
  | some _ => .ok ()

/-! ## The notebook itself

The notebook is a straight-line sequence of code cells operating on an
interactive-session state (the variables `model` and `simulation`); errors
from the library propagate and abort the run, since the notebook has no
error handling of its own. -/

/-- The interactive session's variables: `model` and `simulation`, undefined
until first assigned. -/
structure SessionState where
  model : Option Model
  simulation : Option Simulation
deriving Repr, DecidableEq

/-- The session before the first cell runs. -/
def initialSession : SessionState :=
  { model := none, simulation := none }

/-- A code cell: transforms the session or raises. -/
abbrev Cell := SessionState → Except String SessionState

/-- Reading the variable `model` raises when it is not yet defined. -/
def requireModel (st : SessionState) : Except String Model :=
  match st.model with
  | none => .error "NameError: model is not defined"
  | some m => .ok m

/-- Cell 4 of the source: `model = pybamm.lithium_ion.SPM()`. -/
def cellLoadSPMBuilt : Cell := fun st =>
  (lithium_ion.SPM true).map (fun m => { st with model := some m })

/-- Cells 6 and 13 of the source: the `for name, submodel in
model.submodels.items()` print loop, which reads but does not change the
session. -/
def cellPrintSubmodels : Cell := fun st =>
  (requireModel st).map (fun _ => st)

/-- Cell 8 of the source: `model = pybamm.lithium_ion.SPM(build=False)`. -/
def cellLoadSPMUnbuilt : Cell := fun st =>
  (lithium_ion.SPM false).map (fun m => { st with model := some m })

/-- A submodel assignment cell: `model.submodels[k] = f(model.param, ...)`. -/
def cellSetSubmodel (k : String) (f : Param → Submodel) : Cell := fun st =>
  (requireModel st).map
    (fun m => { st with model := some (m.setSubmodel k (f m.param)) })

/-- Cells 15 and 19 of the source: displaying `model.rhs`, a pure read. -/
def cellReadRhs : Cell := fun st =>
  (requireModel st).map (fun _ => st)

/-- Cells 17 and 39 of the source: `model.build_model()`. -/
def cellBuildModel : Cell := fun st =>
  (requireModel st).bind
    (fun m => m.build_model.map (fun m' => { st with model := some m' }))

/-- Cells 21 and 41 of the source: `simulation = pybamm.Simulation(model)`,
`simulation.solve([0, 3600])`, `simulation.plot()`. -/
def cellSimulateSolvePlot (tspan : List Nat) : Cell := fun st =>
  (requireModel st).bind (fun m =>
    ((Simulation.make m).solve tspan).bind (fun s' =>
      s'.plot.map (fun _ => { st with simulation := some s' })))

/-- Cell 23 of the source: `model = pybamm.lithium_ion.BaseModel()`. -/
def cellLoadBaseModel : Cell := fun st =>
  .ok { st with model := some lithium_ion.BaseModel }

/-- The submodel assignments of cells 25 to 37 of the source, in cell
order: the hand-assembled single particle model with uniform particle
concentration profiles. -/
def customModelAssignCells : List Cell :=
  [cellSetSubmodel "external circuit"
     (fun p => external_circuit.CurrentControl p),
   cellSetSubmodel "current collector" (fun p => current_collector.Uniform p),
   cellSetSubmodel "thermal" (fun p => thermal.isothermal.Isothermal p),
   cellSetSubmodel "porosity" (fun p => porosity.Constant p),
   cellSetSubmodel "negative electrode"
     (fun p => electrode.ohm.LeadingOrder p "Negative"),
   cellSetSubmodel "positive electrode"
     (fun p => electrode.ohm.LeadingOrder p "Positive"),
   cellSetSubmodel "negative particle"
     (fun p => particle.PolynomialSingleParticle p "Negative" "uniform profile"),
   cellSetSubmodel "positive particle"
     (fun p => particle.PolynomialSingleParticle p "Positive" "uniform profile"),
   cellSetSubmodel "negative interface"
     (fun p => interface.InverseButlerVolmer p "Negative" "lithium-ion main"),
   cellSetSubmodel "positive interface"
     (fun p => interface.InverseButlerVolmer p "Positive" "lithium-ion main"),
   cellSetSubmodel "negative interface current"
     (fun p => interface.CurrentForInverseButlerVolmer p "Negative" "lithium-ion main"),
   cellSetSubmodel "positive interface current"
     (fun p => interface.CurrentForInverseButlerVolmer p "Positive" "lithium-ion main"),
   cellSetSubmodel "negative sei" (fun p => sei.NoSEI p "Negative"),
   cellSetSubmodel "positive sei" (fun p => sei.NoSEI p "Positive"),
   cellSetSubmodel "electrolyte diffusion"
     (fun p => electrolyte_diffusion.ConstantConcentration p),
   cellSetSubmodel "electrolyte conductivity"
     (fun p => electrolyte_conductivity.LeadingOrder p)]

/-- The submodel assignments of cells 25 to 37 as registry data: the key
each cell assigns and the submodel it stores there (`model.param` is the
lithium-ion parameter object throughout). -/
def customSubmodelAssignments : List (String × Submodel) :=
  [("external circuit", external_circuit.CurrentControl lithiumIonParam),
   ("current collector", current_collector.Uniform lithiumIonParam),
   ("thermal", thermal.isothermal.Isothermal lithiumIonParam),
   ("porosity", porosity.Constant lithiumIonParam),
   ("negative electrode", electrode.ohm.LeadingOrder lithiumIonParam "Negative"),
   ("positive electrode", electrode.ohm.LeadingOrder lithiumIonParam "Positive"),
   ("negative particle",
     particle.PolynomialSingleParticle lithiumIonParam "Negative" "uniform profile"),
   ("positive particle",
     particle.PolynomialSingleParticle lithiumIonParam "Positive" "uniform profile"),
   ("negative interface",
     interface.InverseButlerVolmer lithiumIonParam "Negative" "lithium-ion main"),
   ("positive interface",
     interface.InverseButlerVolmer lithiumIonParam "Positive" "lithium-ion main"),
   ("negative interface current",
     interface.CurrentForInverseButlerVolmer lithiumIonParam "Negative" "lithium-ion main"),
   ("positive interface current",
     interface.CurrentForInverseButlerVolmer lithiumIonParam "Positive" "lithium-ion main"),
   ("negative sei", sei.NoSEI lithiumIonParam "Negative"),
   ("positive sei", sei.NoSEI lithiumIonParam "Positive"),
   ("electrolyte diffusion",
     electrolyte_diffusion.ConstantConcentration lithiumIonParam),
   ("electrolyte conductivity",
     electrolyte_conductivity.LeadingOrder lithiumIonParam)]

/-- The notebook's code cells in execution order: no branching, no error
handling, no data transformation of its own. -/
def notebookCells : List Cell :=
  [cellLoadSPMBuilt, cellPrintSubmodels, cellLoadSPMUnbuilt,
   cellSetSubmodel "negative particle"
     (fun p => particle.PolynomialSingleParticle p "Negative" "uniform profile"),
   cellPrintSubmodels, cellReadRhs, cellBuildModel, cellReadRhs,
   cellSimulateSolvePlot [0, 3600],
   cellLoadBaseModel] ++
  customModelAssignCells ++
  [cellBuildModel, cellSimulateSolvePlot [0, 3600]]

/-- Running a sequence of cells: each cell consumes the state produced by
the one before it, and an error aborts the rest of the run. -/
def runCells (cells : List Cell) (st : Except String SessionState) :
    Except String SessionState :=
  match cells with
  | [] => st
  | c :: cs => runCells cs (st.bind c)

/-- An execution of a cell sequence as a judgement: `Exec cells st st'`
holds when running `cells` from `st` can end in `st'`. -/
inductive Exec : List Cell → Except String SessionState →
    Except String SessionState → Prop
  | nil (st : Except String SessionState) : Exec [] st st
  | cons (c : Cell) (cs : List Cell) (st st' : Except String SessionState) :
      Exec cs (st.bind c) st' → Exec (c :: cs) st st'

/-! ## Lemmas about the registry and the build step -/

theorem dictGet_dictSet_self (d : SubmodelDict) (k : String) (v : Submodel) :
    dictGet (dictSet d k v) k = some v := by
  induction d with
  | nil => simp [dictGet, dictSet]
  | cons p rest ih =>
      obtain ⟨a, b⟩ := p
      by_cases h : a = k
      · simp [dictSet, dictGet, h]
      · simp [dictSet, dictGet, h, ih]

theorem dictGet_dictSet_ne (d : SubmodelDict) (k k' : String) (v : Submodel)
    (h : k' ≠ k) : dictGet (dictSet d k v) k' = dictGet d k' := by
  induction d with
  | nil => simp [dictGet, dictSet, Ne.symm h]
  | cons p rest ih =>
      obtain ⟨a, b⟩ := p
      by_cases ha : a = k
      · subst ha
        simp [dictSet, dictGet, Ne.symm h]
      · simp [dictSet, dictGet, ha, ih]

theorem build_model_ok_of_complete (m : Model)
    (h : ∀ k ∈ requiredSubmodelKeys, (dictGet m.submodels k).isSome) :
    m.build_model =
      .ok { m with rhs := assembleRhs m.submodels, built := true } := by
  have hm : missingSubmodels m = [] := by
    refine List.filter_eq_nil_iff.mpr (fun k hk => ?_)
    have := h k hk
    cases hd : dictGet m.submodels k with
    | none => rw [hd] at this; simp at this
    | some v => simp [hd]
  simp [Model.build_model, hm]

theorem build_model_error_of_missing (m : Model) (k : String)
    (hk : k ∈ requiredSubmodelKeys) (h : dictGet m.submodels k = none) :
    ∃ e, m.build_model = .error e := by
  have hne : missingSubmodels m ≠ [] := by
    intro hnil
    have := List.filter_eq_nil_iff.mp hnil k hk
    simp [h] at this
  cases hm : missingSubmodels m with
  | nil => exact absurd hm hne
  | cons a rest => exact ⟨"Submodel missing for " ++ a, by
      simp [Model.build_model, hm]⟩

theorem built_of_build_model (m m' : Model) (h : m.build_model = .ok m') :
    m'.built = true := by
  unfold Model.build_model at h
  cases hm : missingSubmodels m <;> rw [hm] at h
  · cases h; rfl
  · cases h

theorem setSubmodel_rhs (m : Model) (k : String) (s : Submodel) :
    (m.setSubmodel k s).rhs = m.rhs := rfl

theorem applyAssignments_rhs (m : Model)
    (assigns : List (String × Submodel)) :
    (applyAssignments m assigns).rhs = m.rhs := by
  induction assigns generalizing m with
  | nil => rfl
  | cons p rest ih =>
      have := ih (m.setSubmodel p.1 p.2)
      simpa [applyAssignments] using this

theorem applyAssignments_dictGet_of_not_assigned (m : Model)
    (assigns : List (String × Submodel)) (k : String)
    (h : ∀ p ∈ assigns, p.1 ≠ k) :
    dictGet (applyAssignments m assigns).submodels k =
      dictGet m.submodels k := by
  induction assigns generalizing m with
  | nil => rfl
  | cons p rest ih =>
      have hstep : dictGet (m.setSubmodel p.1 p.2).submodels k =
          dictGet m.submodels k := by
        have hpk : p.1 ≠ k := h p (by simp)
        simpa [Model.setSubmodel] using
          dictGet_dictSet_ne m.submodels p.1 k p.2 (Ne.symm hpk)
      have hrest : ∀ q ∈ rest, q.1 ≠ k := fun q hq => h q (by simp [hq])
      have := ih (m.setSubmodel p.1 p.2) hrest
      simpa [applyAssignments, hstep] using this

/-! ## Lemmas about notebook execution -/

theorem Exec_runCells (cells : List Cell)
    (st st' : Except String SessionState) (h : Exec cells st st') :
    st' = runCells cells st := by
  induction h with
  | nil st => rfl
  | cons c cs st st' hexec ih => simpa [runCells] using ih

theorem Exec_intro (cells : List Cell) (st : Except String SessionState) :
    Exec cells st (runCells cells st) := by
  induction cells generalizing st with
  | nil => exact .nil st
  | cons c cs ih => exact .cons c cs st _ (ih (st.bind c))

/-! ## The claims -/

/-- C1: for the SPM loaded with `build=False` the right-hand-side container
`model.rhs` is the empty mapping, and after `build_model()` returns it is
non-empty, holding one equation entry per state variable of the composed
submodels. -/
theorem c1_rhs_empty_pre_build_populated_post :
    lithium_ion.SPM false = .ok lithium_ion.SPM_unbuilt ∧
    lithium_ion.SPM_unbuilt.rhs = [] ∧
    ∃ m', lithium_ion.SPM_unbuilt.build_model = .ok m' ∧
      m'.rhs ≠ [] ∧
      m'.rhs.map Prod.fst =
        lithium_ion.SPM_unbuilt.submodels.flatMap
          (fun p => p.2.stateVariables) := by
  refine ⟨rfl, rfl, lithium_ion.SPM_built, rfl, ?_, rfl⟩
  decide

/-- C2: `build_model` raises when a required submodel is missing from the
registry, and succeeds when every required submodel key is assigned. -/
theorem c2_build_model_missing_submodels (m : Model) :
    ((∃ k ∈ requiredSubmodelKeys, dictGet m.submodels k = none) →
      ∃ e, m.build_model = .error e) ∧
    ((∀ k ∈ requiredSubmodelKeys, (dictGet m.submodels k).isSome) →
      ∃ m', m.build_model = .ok m') := by
  constructor
  · rintro ⟨k, hk, h⟩
    exact build_model_error_of_missing m k hk h
  · intro h
    exact ⟨_, build_model_ok_of_complete m h⟩

theorem c2_witness :
    (∃ e, lithium_ion.BaseModel.build_model = .error e) ∧
    ∃ m', lithium_ion.SPM_unbuilt.build_model = .ok m' :=
  ⟨(c2_build_model_missing_submodels lithium_ion.BaseModel).1
      ⟨"external circuit", by decide, rfl⟩,
   (c2_build_model_missing_submodels lithium_ion.SPM_unbuilt).2 (by decide)⟩

/-- C3: the SPM constructor takes a `build` flag; with the flag omitted
(the library default, `build=True`) the result is fully built, while
`build=False` collects all 22 submodels into the registry but leaves the
model unbuilt with empty equation containers. -/
theorem c3_build_flag :
    (∃ m, lithium_ion.SPM_default = .ok m ∧ m.built = true ∧ m.rhs ≠ []) ∧
    lithium_ion.SPM_default = lithium_ion.SPM true ∧
    lithium_ion.SPM false = .ok lithium_ion.SPM_unbuilt ∧
    lithium_ion.SPM_unbuilt.submodels = lithium_ion.SPM_submodels ∧
    lithium_ion.SPM_submodels.length = 22 ∧
    lithium_ion.SPM_unbuilt.built = false ∧
    lithium_ion.SPM_unbuilt.rhs = [] := by
  exact ⟨⟨lithium_ion.SPM_built, rfl, rfl, by decide⟩,
    rfl, rfl, rfl, rfl, rfl, rfl⟩

/-- C4: the submodel registry is a mutable mapping: after the assignment
`model.submodels[k] = s`, looking up key `k` returns `s`. -/
theorem c4_registry_update_takes_effect (m : Model) (k : String)
    (s : Submodel) :
    dictGet (m.setSubmodel k s).submodels k = some s := by
  simpa [Model.setSubmodel] using dictGet_dictSet_self m.submodels k s

theorem c4_witness :
    dictGet
      ((lithium_ion.SPM_unbuilt.setSubmodel "negative particle"
        (particle.PolynomialSingleParticle lithiumIonParam "Negative"
          "uniform profile")).submodels)
      "negative particle" =
    some (particle.PolynomialSingleParticle lithiumIonParam "Negative"
      "uniform profile") :=
  c4_registry_update_takes_effect lithium_ion.SPM_unbuilt "negative particle"
    (particle.PolynomialSingleParticle lithiumIonParam "Negative"
      "uniform profile")

/-- C5: using an unbuilt model (its equation containers still empty) in a
simulation solve produces a library-level error rather than succeeding
silently. -/
theorem c5_unbuilt_model_solve_errors (m : Model) (tspan : List Nat)
    (h : m.built = false) :
    ∃ e, (Simulation.make m).solve tspan = .error e :=
  ⟨"Cannot solve an unbuilt model; call build_model first",
    by simp [Simulation.make, Simulation.solve, h]⟩

theorem c5_witness :
    lithium_ion.SPM_unbuilt.rhs = [] ∧
    ∃ e, (Simulation.make lithium_ion.SPM_unbuilt).solve [0, 3600] =
      .error e :=
  ⟨rfl, c5_unbuilt_model_solve_errors lithium_ion.SPM_unbuilt [0, 3600] rfl⟩

/-- C6: the Simulation constructor accepts any built model, and after
`build_model()` succeeds, `Simulation(model).solve([0, 3600])` followed by
`plot()` completes without error. -/
theorem c6_simulation_on_built_model (m m' : Model)
    (h : m.build_model = .ok m') :
    ∃ s', (Simulation.make m').solve [0, 3600] = .ok s' ∧
      s'.plot = .ok () := by
  have hb := built_of_build_model m m' h
  exact ⟨{ model := m', solution := some [0, 3600] },
    by simp [Simulation.make, Simulation.solve, hb], rfl⟩

theorem c6_witness :
    lithium_ion.SPM_unbuilt.build_model = .ok lithium_ion.SPM_built ∧
    ∃ s', (Simulation.make lithium_ion.SPM_built).solve [0, 3600] = .ok s' ∧
      s'.plot = .ok () :=
  ⟨rfl, c6_simulation_on_built_model lithium_ion.SPM_unbuilt
    lithium_ion.SPM_built rfl⟩

/-- C7: the notebook is a fixed straight-line cell sequence, so its
execution is deterministic: two runs from the same initial session state
end in the same final state (same submodel registries and built models). -/
theorem c7_notebook_deterministic (st st1 st2 : Except String SessionState)
    (h1 : Exec notebookCells st st1) (h2 : Exec notebookCells st st2) :
    st1 = st2 :=
  (Exec_runCells notebookCells st st1 h1).trans
    (Exec_runCells notebookCells st st2 h2).symm

theorem c7_witness :
    runCells notebookCells (.ok initialSession) =
      runCells notebookCells (.ok initialSession) :=
  c7_notebook_deterministic (.ok initialSession)
    (runCells notebookCells (.ok initialSession))
    (runCells notebookCells (.ok initialSession))
    (Exec_intro notebookCells (.ok initialSession))
    (Exec_intro notebookCells (.ok initialSession))

/-- C8: a registry assignment is frame-preserving: after
`model.submodels[k] = s`, every other key still maps to the same submodel
as before. -/
theorem c8_registry_update_frame (m : Model) (k k' : String) (s : Submodel)
    (h : k' ≠ k) :
    dictGet (m.setSubmodel k s).submodels k' = dictGet m.submodels k' := by
  simpa [Model.setSubmodel] using dictGet_dictSet_ne m.submodels k k' s h

theorem c8_witness :
    dictGet
      ((lithium_ion.SPM_unbuilt.setSubmodel "negative particle"
        (particle.PolynomialSingleParticle lithiumIonParam "Negative"
          "uniform profile")).submodels) "thermal" =
    dictGet lithium_ion.SPM_unbuilt.submodels "thermal" :=
  c8_registry_update_frame lithium_ion.SPM_unbuilt "negative particle"
    "thermal"
    (particle.PolynomialSingleParticle lithiumIonParam "Negative"
      "uniform profile")
    (by decide)

/-- C9: mutating the submodel registry never populates the equation
containers: any sequence of submodel assignments leaves `model.rhs` (and
the built status) exactly as it was, so an unbuilt model's `rhs` stays
empty until `build_model` is called. -/
theorem c9_assignments_never_populate_rhs (m : Model)
    (assigns : List (String × Submodel)) :
    (applyAssignments m assigns).rhs = m.rhs ∧
    (applyAssignments m assigns).built = m.built := by
  constructor
  · exact applyAssignments_rhs m assigns
  · induction assigns generalizing m with
    | nil => rfl
    | cons p rest ih =>
        have := ih (m.setSubmodel p.1 p.2)
        simpa [applyAssignments] using this

theorem c9_witness :
    (applyAssignments lithium_ion.BaseModel customSubmodelAssignments).rhs =
      lithium_ion.BaseModel.rhs :=
  (c9_assignments_never_populate_rhs lithium_ion.BaseModel
    customSubmodelAssignments).1

/-- C10: `BaseModel` selects no default submodels: its registry starts
empty and the model is unbuilt; as long as some required submodel key is
never assigned, `build_model` raises, and assigning all of the notebook's
submodels makes it succeed. -/
theorem c10_base_model_starts_empty :
    lithium_ion.BaseModel.submodels = [] ∧
    lithium_ion.BaseModel.rhs = [] ∧
    lithium_ion.BaseModel.built = false ∧
    (∀ (assigns : List (String × Submodel)) (k : String),
      k ∈ requiredSubmodelKeys → (∀ p ∈ assigns, p.1 ≠ k) →
      ∃ e, (applyAssignments lithium_ion.BaseModel assigns).build_model =
        .error e) ∧
    ∃ m', (applyAssignments lithium_ion.BaseModel
      customSubmodelAssignments).build_model = .ok m' := by
  refine ⟨rfl, rfl, rfl, ?_, ?_⟩
  · intro assigns k hk hna
    refine build_model_error_of_missing _ k hk ?_
    rw [applyAssignments_dictGet_of_not_assigned lithium_ion.BaseModel
      assigns k hna]
    rfl
  · exact ⟨_, rfl⟩

theorem c10_witness :
    ∃ e, (applyAssignments lithium_ion.BaseModel []).build_model =
      .error e :=
  c10_base_model_starts_empty.2.2.2.1 [] "external circuit" (by decide)
    (by simp)

end PyBaMM
